import Mathlib

/-
Verification development for the Sentinel-2 SCL quality-assessment and
scene-filtering core of the eo_workflow teaching pipeline.  The embedded
functions are `util.calculate_scl_histogram`, `assess_sentinel2_quality`
(its per-scene loop body), `filter_scenes_by_validity_ratio`, and the two
duplicated `vegetation_time_series` implementations.  Pixel grids are lists
of rows of integer codes, Python floats are modelled by rationals, Python
dictionaries by association lists in insertion order, and raised exceptions
by `Except.error` carrying the exception message.
-/

namespace EOWorkflow

/-- A 2D SCL scene: a grid of integer classification codes, one per pixel. -/
abbrev Scene := List (List Int)

/-- The default `valid_classes` argument of `calculate_scl_histogram`,
Python `list(range(12))`. -/
def defaultClasses : List Int := [0, 1, 2, 3, 4, 5, 6, 7, 8, 9, 10, 11]

/-- Embedding of `util.calculate_scl_histogram`: ravel the scene, build the
code-to-count dictionary over `valid_classes` (duplicate codes collapse),
sort the codes, and list the counts in code order. -/
def calculate_scl_histogram (scl_scene : Scene) (valid_classes : List Int) :
    List Int × List Nat :=
  let values := scl_scene.flatten
  let classes := valid_classes.dedup.insertionSort (· ≤ ·)
  let frequencies :=
    classes.map (fun cls => (values.filter (fun v => decide (v = cls))).length)
  (classes, frequencies)

/-- Number of pixels of a scene equal to a given code, the quantity
`np.count_nonzero(values == cls)` of the histogram. -/
def pixelCount (scl_scene : Scene) (cls : Int) : Nat :=
  (scl_scene.flatten.filter (fun v => decide (v = cls))).length

/-- The `sum(frequencies[7:11])` expression of `assess_sentinel2_quality`,
the cloud-pixel count. -/
def cloud_pixels_of (frequencies : List Nat) : Nat :=
  ((frequencies.drop 7).take 4).sum

/-- The per-scene entry of the quality report produced by
`assess_sentinel2_quality`. -/
structure QualityRecord where
  total_pixels : Nat
  valid_pixels : Nat
  valid_ratio : ℚ
  coverage : ℚ
deriving DecidableEq

/-- The loop body of `assess_sentinel2_quality` for one scene: histogram with
the default class list, `total_pixels = sum(frequencies)`,
`valid_pixels = sum(frequencies[1:])`, guarded ratio, cloud count over the
slice `frequencies[7:11]`, and the two-step coverage computation with its
final clamping line. -/
def assess_scene (scl_scene : Scene) : QualityRecord :=
  let fr := (calculate_scl_histogram scl_scene defaultClasses).2
  let total_pixels := fr.sum
  let valid_pixels := (fr.drop 1).sum
  let valid_ratio : ℚ :=
    if total_pixels ≠ 0 then (valid_pixels : ℚ) / (total_pixels : ℚ) else 0
  let cloud_pixels := cloud_pixels_of fr
  let veg := fr.getD 4 0
  let coverage : ℚ :=
    if veg ≠ 0 then 1 - ((cloud_pixels : ℚ) / (veg : ℚ)) else 0
  let coverage := if cloud_pixels < veg then coverage else 0
  ⟨total_pixels, valid_pixels, valid_ratio, coverage⟩

/-- Embedding of `assess_sentinel2_quality`: the quality report, one record
per time slice, keyed by list position (the loop runs over
`range(scl.sizes["time"])` and stores a record for every index). -/
def assess_sentinel2_quality (scl : List Scene) : List QualityRecord :=
  scl.map assess_scene

/-- A quality-metrics dictionary as consumed by the filter: either metric key
may be absent from the record. -/
structure QualityStats where
  valid_ratio : Option ℚ
  coverage : Option ℚ
deriving DecidableEq

/-- The per-scene retention test of `filter_scenes_by_validity_ratio`:
`quality_stats.get("valid_ratio", 0.0) >= validity_threshold` conjoined with
`quality_stats.get("coverage", 0.0) >= coverage_threshold`. -/
def sceneKept (stats : QualityStats) (vt ct : ℚ) : Bool :=
  decide (stats.valid_ratio.getD 0 ≥ vt) && decide (stats.coverage.getD 0 ≥ ct)

/-- The `keep_indices` list the filter loop accumulates when no exception
interrupts it: the keys of the report entries passing both thresholds, in the
iteration order of the quality-report dictionary. -/
def keepIndices (report : List (Nat × QualityStats)) (vt ct : ℚ) : List Nat :=
  (report.filter (fun e => sceneKept e.2 vt ct)).map Prod.fst

/-- Message of the IndexError raised by `isel` inside `get_scene_by_scene_id`
when a report key is not a valid time index of the dataset. -/
def indexErrorMsg : String := "IndexError: scene_id out of range for dimension time"

/-- Message of the KeyError raised by the verbose log line, which reads
`quality_stats["valid_ratio"]` without a default. -/
def keyErrorMsg : String := "KeyError: valid_ratio"

/-- Message of the ValueError raised when no scene passes both thresholds. -/
def emptyResultMsg : String := "No valid scenes found above the specified thresholds."

/-- The scene loop of `filter_scenes_by_validity_ratio` over the dictionary
entries, for a dataset with `n` time steps.  Each iteration evaluates the two
threshold tests with `.get(..., 0.0)`, fetches the scene via
`get_scene_by_scene_id` (IndexError when the key is out of range), formats
the log line when `verbose` is set (KeyError: the line reads
`quality_stats["valid_ratio"]` directly), and accumulates the keys of the
kept scenes. -/
def filterLoop (n : Nat) (vt ct : ℚ) (verbose : Bool) :
    List (Nat × QualityStats) → Except String (List Nat)
  | [] => Except.ok []
  | (scene_id, stats) :: rest =>
    if n ≤ scene_id then Except.error indexErrorMsg
    else if verbose && stats.valid_ratio.isNone then Except.error keyErrorMsg
    else
      match filterLoop n vt ct verbose rest with
      | Except.error e => Except.error e
      | Except.ok ks => Except.ok (if sceneKept stats vt ct then scene_id :: ks else ks)

/-- Embedding of `filter_scenes_by_validity_ratio`: runs the scene loop over
the quality report, raises the empty-result ValueError when no scene is kept,
and otherwise returns the dataset restricted to the kept time indices in the
order they were accumulated, Python `data_set.isel(time=keep_indices)`. -/
def filter_scenes_by_validity_ratio {α : Type} (data_set : List α)
    (quality_report : List (Nat × QualityStats))
    (validity_threshold coverage_threshold : ℚ) (verbose : Bool) :
    Except String (List α) :=
  match filterLoop data_set.length validity_threshold coverage_threshold
      verbose quality_report with
  | Except.error e => Except.error e
  | Except.ok keep =>
    if keep.isEmpty then Except.error emptyResultMsg
    else Except.ok (keep.filterMap (fun i => data_set[i]?))

/-- An acquisition timestamp, split into the `%Y-%m-%d` date part and the
`%H:%M:%S` time-of-day part. -/
structure Timestamp where
  datePart : String
  timePart : String
deriving DecidableEq

/-- `timestamp.strftime`: the date-only format when `aggregated` is set,
otherwise the full `%Y-%m-%dT%H:%M:%S` format. -/
def strftime (t : Timestamp) (aggregated : Bool) : String :=
  if aggregated then t.datePart else t.datePart ++ "T" ++ t.timePart

/-- One time slice of the dataset as consumed by the vegetation extractors:
its timestamp and its SCL grid. -/
structure TimeSlice where
  time : Timestamp
  scl : Scene
deriving DecidableEq

/-- Embedding of `vegetation_time_series` from `src/eo_workflow`: reads the
vegetation count positionally as `frequencies[4]`, always formats dates as
`%Y-%m-%d`, and converts counts to areas by `count * pixel_size**2 / 1e6`.
The `min_coverage` and `aggregated` arguments are accepted and unused, as in
the source.  Returns the Date and Vegetation Surface Area columns. -/
def vegetation_time_series_v1 (data_set : List TimeSlice) (pixel_size : ℚ)
    (min_coverage : ℚ) (aggregated : Bool) : List String × List ℚ :=
  let date_labels := data_set.map (fun s => s.time.datePart)
  let vegetation_areas := data_set.map (fun s =>
    let fr := (calculate_scl_histogram s.scl defaultClasses).2
    ((fr.getD 4 0 : ℚ) * pixel_size ^ 2) / 1000000)
  (date_labels, vegetation_areas)

/-- Embedding of `vegetation_time_series` from the step5 module: reads the
vegetation count as `frequencies[classes.index(4)]`, falling back to 0 when
code 4 is not among the classes (the ValueError of `.index` is caught), and
formats dates according to `aggregated`.  The `min_coverage` argument is
accepted and unused, as in the source. -/
def vegetation_time_series_v2 (data_set : List TimeSlice) (pixel_size : ℚ)
    (min_coverage : ℚ) (aggregated : Bool) : List String × List ℚ :=
  let date_labels := data_set.map (fun s => strftime s.time aggregated)
  let vegetation_areas := data_set.map (fun s =>
    let h := calculate_scl_histogram s.scl defaultClasses
    let veg : Nat :=
      match h.1.findIdx? (fun c => decide (c = 4)) with
      | some i => h.2.getD i 0
      | none => 0
    ((Nat.cast veg : ℚ) * pixel_size ^ 2) / 1000000)
  (date_labels, vegetation_areas)

end EOWorkflow

namespace EOWorkflow

/-- Frequencies of the default-class histogram, written out per code. -/
theorem histogram_default_eq_map (scene : Scene) :
    calculate_scl_histogram scene defaultClasses =
      (defaultClasses, defaultClasses.map
        (fun c => (scene.flatten.filter (fun v => decide (v = c))).length)) := by
  have h : defaultClasses.dedup.insertionSort (· ≤ ·) = defaultClasses := by decide
  simp only [calculate_scl_histogram]
  rw [h]

/-- The default-class histogram lists the twelve per-code pixel counts. -/
theorem histogram_default_frequencies (scene : Scene) :
    (calculate_scl_histogram scene defaultClasses).2 =
      [pixelCount scene 0, pixelCount scene 1, pixelCount scene 2,
       pixelCount scene 3, pixelCount scene 4, pixelCount scene 5,
       pixelCount scene 6, pixelCount scene 7, pixelCount scene 8,
       pixelCount scene 9, pixelCount scene 10, pixelCount scene 11] := by
  rw [histogram_default_eq_map]
  rfl

/-- The record built by `assess_scene`, with its let-bound locals expanded. -/
theorem assess_scene_eq (scene : Scene) :
    assess_scene scene =
      ⟨(calculate_scl_histogram scene defaultClasses).2.sum,
       ((calculate_scl_histogram scene defaultClasses).2.drop 1).sum,
       (if (calculate_scl_histogram scene defaultClasses).2.sum ≠ 0 then
          (((calculate_scl_histogram scene defaultClasses).2.drop 1).sum : ℚ)
            / ((calculate_scl_histogram scene defaultClasses).2.sum : ℚ)
        else 0),
       (if cloud_pixels_of (calculate_scl_histogram scene defaultClasses).2
            < (calculate_scl_histogram scene defaultClasses).2.getD 4 0 then
          (if (calculate_scl_histogram scene defaultClasses).2.getD 4 0 ≠ 0 then
            1 - ((cloud_pixels_of (calculate_scl_histogram scene defaultClasses).2 : ℚ)
                  / ((calculate_scl_histogram scene defaultClasses).2.getD 4 0 : ℚ))
           else 0)
        else 0)⟩ := rfl

theorem assess_scene_total (scene : Scene) :
    (assess_scene scene).total_pixels =
      (calculate_scl_histogram scene defaultClasses).2.sum := by
  rw [assess_scene_eq]

theorem assess_scene_valid (scene : Scene) :
    (assess_scene scene).valid_pixels =
      ((calculate_scl_histogram scene defaultClasses).2.drop 1).sum := by
  rw [assess_scene_eq]

theorem assess_scene_ratio (scene : Scene) :
    (assess_scene scene).valid_ratio =
      if (calculate_scl_histogram scene defaultClasses).2.sum ≠ 0 then
        (((calculate_scl_histogram scene defaultClasses).2.drop 1).sum : ℚ)
          / ((calculate_scl_histogram scene defaultClasses).2.sum : ℚ)
      else 0 := by
  rw [assess_scene_eq]

/-- The two coverage lines collapse to a single conditional: the `else 0` of
the first line is subsumed because `cloud < veg` forces `veg ≠ 0`. -/
theorem assess_scene_coverage (scene : Scene) :
    (assess_scene scene).coverage =
      if cloud_pixels_of (calculate_scl_histogram scene defaultClasses).2
           < (calculate_scl_histogram scene defaultClasses).2.getD 4 0 then
        1 - ((cloud_pixels_of (calculate_scl_histogram scene defaultClasses).2 : ℚ)
              / ((calculate_scl_histogram scene defaultClasses).2.getD 4 0 : ℚ))
      else 0 := by
  rw [assess_scene_eq]
  by_cases h : cloud_pixels_of (calculate_scl_histogram scene defaultClasses).2
      < (calculate_scl_histogram scene defaultClasses).2.getD 4 0
  · have hne : (calculate_scl_histogram scene defaultClasses).2.getD 4 0 ≠ 0 :=
      Nat.pos_iff_ne_zero.mp (Nat.lt_of_le_of_lt (Nat.zero_le _) h)
    rw [if_pos h, if_pos h, if_pos hne]
  · rw [if_neg h, if_neg h]

/-- Summing the indicator of a value over codes it does not occur in gives 0. -/
theorem sum_map_ite_eq_zero (v : Int) (cs : List Int) (h : v ∉ cs) :
    (cs.map (fun c => if v = c then (1 : Nat) else 0)).sum = 0 := by
  induction cs with
  | nil => rfl
  | cons c cs ih =>
    have h1 : ¬ v = c := fun hv => h (hv ▸ List.mem_cons_self c cs)
    have h2 : v ∉ cs := fun hv => h (List.mem_cons_of_mem c hv)
    simp [h1, ih h2]

/-- Summing the indicator of a value over a duplicate-free code list that
holds it gives exactly 1. -/
theorem sum_map_ite_eq_one (v : Int) (cs : List Int) (hnd : cs.Nodup)
    (hm : v ∈ cs) :
    (cs.map (fun c => if v = c then (1 : Nat) else 0)).sum = 1 := by
  induction cs with
  | nil => cases hm
  | cons c cs ih =>
    obtain ⟨hlo, hnd2⟩ := List.nodup_cons.mp hnd
    rcases List.mem_cons.mp hm with h | h
    · subst h
      simp [sum_map_ite_eq_zero v cs hlo]
    · have hvc : ¬ v = c := by
        rintro rfl
        exact hlo h
      simp [hvc, ih hnd2 h]

/-- Each pixel whose code is listed is counted exactly once across the
per-code filters, so the per-code counts sum to the pixel count. -/
theorem sum_counts_eq_length (classes : List Int) (hnd : classes.Nodup)
    (values : List Int) (hv : ∀ v ∈ values, v ∈ classes) :
    (classes.map
      (fun c => (values.filter (fun v => decide (v = c))).length)).sum
      = values.length := by
  induction values with
  | nil => simp
  | cons v vs ih =>
    have hsplit : (classes.map
        (fun c => ((v :: vs).filter (fun x => decide (x = c))).length))
        = classes.map (fun c => (if v = c then (1 : Nat) else 0)
            + (vs.filter (fun x => decide (x = c))).length) := by
      refine List.map_congr_left (fun c _ => ?_)
      by_cases h : v = c <;> simp [List.filter_cons, h, Nat.add_comm]
    rw [hsplit, List.sum_map_add,
      sum_map_ite_eq_one v classes hnd (hv v (List.mem_cons_self v vs)),
      ih (fun x hx => hv x (List.mem_cons_of_mem v hx))]
    rw [List.length_cons]
    omega

/-- Rows of equal length contribute their common length once each. -/
theorem sum_map_length_const (l : List (List Int)) (c : Nat)
    (h : ∀ x ∈ l, x.length = c) :
    (l.map List.length).sum = l.length * c := by
  induction l with
  | nil => simp
  | cons a l ih =>
    have ha := h a (List.mem_cons_self a l)
    have hl := ih (fun x hx => h x (List.mem_cons_of_mem a hx))
    simp [ha, hl, Nat.succ_mul, Nat.add_comm]

/-- A Python dictionary holds each key once: in the association-list model,
duplicate-free keys determine the stored value. -/
theorem key_unique {β : Type} (report : List (Nat × β))
    (hnd : (report.map Prod.fst).Nodup) (i : Nat) (a b : β)
    (ha : (i, a) ∈ report) (hb : (i, b) ∈ report) : a = b := by
  induction report with
  | nil => cases ha
  | cons e rest ih =>
    obtain ⟨j, c⟩ := e
    rw [List.map_cons] at hnd
    obtain ⟨hlo, hnd2⟩ := List.nodup_cons.mp hnd
    rcases List.mem_cons.mp ha with h1 | h1 <;>
      rcases List.mem_cons.mp hb with h2 | h2
    · injection h1 with hij hac
      injection h2 with hij2 hbc
      rw [hac, hbc]
    · injection h1 with hij hac
      exact absurd (hij ▸ List.mem_map.mpr ⟨(i, b), h2, rfl⟩) hlo
    · injection h2 with hij hbc
      exact absurd (hij ▸ List.mem_map.mpr ⟨(i, a), h1, rfl⟩) hlo
    · exact ih hnd2 h1 h2

/-- When every report key is a valid time index and the verbose log line can
always find the `valid_ratio` key, the filter loop raises nothing and returns
exactly the kept keys in report order. -/
theorem filterLoop_ok (n : Nat) (vt ct : ℚ) (verbose : Bool)
    (report : List (Nat × QualityStats))
    (hrange : ∀ e ∈ report, e.1 < n)
    (hkeys : ∀ e ∈ report, verbose = true → e.2.valid_ratio.isSome) :
    filterLoop n vt ct verbose report = Except.ok (keepIndices report vt ct) := by
  induction report with
  | nil => rfl
  | cons e rest ih =>
    obtain ⟨scene_id, stats⟩ := e
    have h1 : ¬ n ≤ scene_id :=
      Nat.not_le.mpr (hrange _ (List.mem_cons_self _ _))
    have h2 : ¬ (verbose && stats.valid_ratio.isNone) = true := by
      intro hcontra
      obtain ⟨hv, hnone⟩ := Bool.and_eq_true_iff.mp hcontra
      have := hkeys _ (List.mem_cons_self _ _) hv
      simp_all [Option.isNone_iff_eq_none, Option.isSome_iff_exists]
    have ihh := ih (fun x hx => hrange x (List.mem_cons_of_mem _ hx))
      (fun x hx => hkeys x (List.mem_cons_of_mem _ hx))
    rw [filterLoop, if_neg h1, if_neg h2, ihh]
    by_cases hk : sceneKept stats vt ct <;>
      simp [keepIndices, List.filter_cons, hk]

/-- A 10 by 10 scene: 80 vegetation pixels (code 4), 5 low-probability cloud
pixels (code 7), and 15 pixels carrying the out-of-enumeration code 12. -/
def sceneHundred : Scene :=
  [[4, 4, 4, 4, 4, 4, 4, 4, 4, 4],
   [4, 4, 4, 4, 4, 4, 4, 4, 4, 4],
   [4, 4, 4, 4, 4, 4, 4, 4, 4, 4],
   [4, 4, 4, 4, 4, 4, 4, 4, 4, 4],
   [4, 4, 4, 4, 4, 4, 4, 4, 4, 4],
   [4, 4, 4, 4, 4, 4, 4, 4, 4, 4],
   [4, 4, 4, 4, 4, 4, 4, 4, 4, 4],
   [4, 4, 4, 4, 4, 4, 4, 4, 4, 4],
   [7, 7, 7, 7, 7, 12, 12, 12, 12, 12],
   [12, 12, 12, 12, 12, 12, 12, 12, 12, 12]]

/-- C1: for every scene assessed by `assess_sentinel2_quality`, the emitted
coverage equals `1 - cloud_pixels / vegetation_pixels` when the code-4 count
is nonzero and `cloud_pixels < vegetation_pixels`, and equals 0 otherwise;
consequently coverage always lies in `[0, 1]` and is 0 whenever the code-4
count is 0. -/
theorem coverage_clamping_c1 (scl : List Scene) (scene : Scene)
    (hmem : scene ∈ scl) :
    assess_scene scene ∈ assess_sentinel2_quality scl ∧
    ((pixelCount scene 4 ≠ 0 ∧
        cloud_pixels_of (calculate_scl_histogram scene defaultClasses).2
          < pixelCount scene 4) →
      (assess_scene scene).coverage =
        1 - ((cloud_pixels_of (calculate_scl_histogram scene defaultClasses).2 : ℚ)
              / (pixelCount scene 4 : ℚ))) ∧
    (¬ (pixelCount scene 4 ≠ 0 ∧
        cloud_pixels_of (calculate_scl_histogram scene defaultClasses).2
          < pixelCount scene 4) →
      (assess_scene scene).coverage = 0) ∧
    0 ≤ (assess_scene scene).coverage ∧
    (assess_scene scene).coverage ≤ 1 ∧
    (pixelCount scene 4 = 0 → (assess_scene scene).coverage = 0) := by
  have hveg : (calculate_scl_histogram scene defaultClasses).2.getD 4 0
      = pixelCount scene 4 := by
    rw [histogram_default_frequencies]
    rfl
  have hcov := assess_scene_coverage scene
  rw [hveg] at hcov
  set cloud := cloud_pixels_of (calculate_scl_histogram scene defaultClasses).2
  set veg := pixelCount scene 4
  refine ⟨List.mem_map_of_mem assess_scene hmem, ?_, ?_, ?_, ?_, ?_⟩
  · rintro ⟨h1, h2⟩
    rw [hcov, if_pos h2]
  · intro h
    rw [hcov]
    by_cases h2 : cloud < veg
    · exact absurd
        ⟨Nat.pos_iff_ne_zero.mp (Nat.lt_of_le_of_lt (Nat.zero_le _) h2), h2⟩ h
    · rw [if_neg h2]
  · rw [hcov]
    by_cases h2 : cloud < veg
    · rw [if_pos h2]
      have hvpos : (0 : ℚ) < (veg : ℚ) := by
        exact_mod_cast Nat.lt_of_le_of_lt (Nat.zero_le _) h2
      have hle : (cloud : ℚ) ≤ (veg : ℚ) := by exact_mod_cast Nat.le_of_lt h2
      have hq : (cloud : ℚ) / (veg : ℚ) ≤ 1 := (div_le_one hvpos).mpr hle
      linarith
    · rw [if_neg h2]
  · rw [hcov]
    by_cases h2 : cloud < veg
    · rw [if_pos h2]
      have hq : (0 : ℚ) ≤ (cloud : ℚ) / (veg : ℚ) :=
        div_nonneg (Nat.cast_nonneg cloud) (Nat.cast_nonneg veg)
      linarith
    · rw [if_neg h2]
      norm_num
  · intro h0
    rw [hcov, if_neg (by omega)]

/-- C1 witness: on the concrete scene `[[4, 4, 7]]` (two vegetation pixels,
one cloud pixel) the emitted coverage is inside `[0, 1]`. -/
theorem coverage_clamping_c1_witness :
    0 ≤ (assess_scene [[4, 4, 7]]).coverage ∧
    (assess_scene [[4, 4, 7]]).coverage ≤ 1 :=
  ⟨(coverage_clamping_c1 [[[4, 4, 7]]] [[4, 4, 7]]
      (List.mem_cons_self _ _)).2.2.2.1,
   (coverage_clamping_c1 [[[4, 4, 7]]] [[4, 4, 7]]
      (List.mem_cons_self _ _)).2.2.2.2.1⟩

/-- C2: for every scene assessed by `assess_sentinel2_quality`, the
cloud-pixel count `sum(frequencies[7:11])` equals the sum of the histogram
counts of exactly the codes 7, 8, 9 and 10, the histogram being taken over
the default dense class list 0 to 11. -/
theorem cloud_codes_c2 (scl : List Scene) (scene : Scene) (hmem : scene ∈ scl) :
    assess_scene scene ∈ assess_sentinel2_quality scl ∧
    cloud_pixels_of (calculate_scl_histogram scene defaultClasses).2 =
      pixelCount scene 7 + pixelCount scene 8 + pixelCount scene 9 +
        pixelCount scene 10 := by
  refine ⟨List.mem_map_of_mem assess_scene hmem, ?_⟩
  rw [histogram_default_frequencies]
  show pixelCount scene 7 + (pixelCount scene 8
      + (pixelCount scene 9 + (pixelCount scene 10 + 0))) = _
  omega

/-- C2 witness: concrete evaluation on a four-pixel scene holding one pixel
of each cloud code. -/
theorem cloud_codes_c2_witness :
    cloud_pixels_of (calculate_scl_histogram [[7, 8], [9, 10]] defaultClasses).2 =
      pixelCount [[7, 8], [9, 10]] 7 + pixelCount [[7, 8], [9, 10]] 8 +
        pixelCount [[7, 8], [9, 10]] 9 + pixelCount [[7, 8], [9, 10]] 10 :=
  (cloud_codes_c2 [[[7, 8], [9, 10]]] [[7, 8], [9, 10]]
    (List.mem_cons_self _ _)).2

/-- C5: for every scene assessed by `assess_sentinel2_quality`,
`valid_pixels` is the total count minus the code-0 count, `valid_ratio` is
`valid_pixels / total_pixels` guarded to 0 when `total_pixels = 0`, and the
ratio always lies in `[0, 1]`. -/
theorem valid_ratio_safe_c5 (scl : List Scene) (scene : Scene)
    (hmem : scene ∈ scl) :
    assess_scene scene ∈ assess_sentinel2_quality scl ∧
    (assess_scene scene).valid_pixels =
      (assess_scene scene).total_pixels - pixelCount scene 0 ∧
    ((assess_scene scene).total_pixels ≠ 0 →
      (assess_scene scene).valid_ratio =
        ((assess_scene scene).valid_pixels : ℚ)
          / ((assess_scene scene).total_pixels : ℚ)) ∧
    ((assess_scene scene).total_pixels = 0 →
      (assess_scene scene).valid_ratio = 0) ∧
    0 ≤ (assess_scene scene).valid_ratio ∧
    (assess_scene scene).valid_ratio ≤ 1 := by
  have htv : (assess_scene scene).total_pixels
      = pixelCount scene 0 + (assess_scene scene).valid_pixels := by
    rw [assess_scene_total, assess_scene_valid, histogram_default_frequencies]
    rfl
  have hr := assess_scene_ratio scene
  rw [← assess_scene_total, ← assess_scene_valid] at hr
  refine ⟨List.mem_map_of_mem assess_scene hmem, by omega, ?_, ?_, ?_, ?_⟩
  · intro hne
    rw [hr, if_pos hne]
  · intro h0
    rw [hr, if_neg (not_not.mpr h0)]
  · rw [hr]
    by_cases hne : (assess_scene scene).total_pixels ≠ 0
    · rw [if_pos hne]
      exact div_nonneg (Nat.cast_nonneg _) (Nat.cast_nonneg _)
    · rw [if_neg hne]
  · rw [hr]
    by_cases hne : (assess_scene scene).total_pixels ≠ 0
    · rw [if_pos hne]
      have hTpos : (0 : ℚ) < ((assess_scene scene).total_pixels : ℚ) := by
        exact_mod_cast Nat.pos_of_ne_zero hne
      have hle : ((assess_scene scene).valid_pixels : ℚ)
          ≤ ((assess_scene scene).total_pixels : ℚ) := by
        exact_mod_cast
          (by omega : (assess_scene scene).valid_pixels
            ≤ (assess_scene scene).total_pixels)
      exact (div_le_one hTpos).mpr hle
    · rw [if_neg hne]
      norm_num

/-- C5 witness: on the concrete scene `[[0, 4]]` the valid ratio is inside
`[0, 1]`. -/
theorem valid_ratio_safe_c5_witness :
    0 ≤ (assess_scene [[0, 4]]).valid_ratio ∧
    (assess_scene [[0, 4]]).valid_ratio ≤ 1 :=
  ⟨(valid_ratio_safe_c5 [[[0, 4]]] [[0, 4]]
      (List.mem_cons_self _ _)).2.2.2.2.1,
   (valid_ratio_safe_c5 [[[0, 4]]] [[0, 4]]
      (List.mem_cons_self _ _)).2.2.2.2.2⟩

/-- C6: for every rectangular 2D scene whose pixel values all lie in the code
enumeration 0 to 11, the default-class histogram counts sum exactly to the
row count times the column count. -/
theorem histogram_partition_c6 (scene : Scene) (cols : Nat)
    (hrect : ∀ row ∈ scene, row.length = cols)
    (hvals : ∀ v ∈ scene.flatten, v ∈ defaultClasses) :
    (calculate_scl_histogram scene defaultClasses).2.sum
      = scene.length * cols := by
  have h1 : (calculate_scl_histogram scene defaultClasses).2
      = defaultClasses.map
          (fun c => (scene.flatten.filter (fun v => decide (v = c))).length) := by
    rw [histogram_default_eq_map]
  rw [h1, sum_counts_eq_length defaultClasses (by decide) scene.flatten hvals,
    List.length_flatten, sum_map_length_const scene cols hrect]

/-- C6 witness: the histogram of a concrete 2 by 3 scene sums to 6. -/
theorem histogram_partition_c6_witness :
    (calculate_scl_histogram [[1, 2, 3], [4, 5, 6]] defaultClasses).2.sum
      = 2 * 3 :=
  histogram_partition_c6 [[1, 2, 3], [4, 5, 6]] 3 (by decide) (by decide)

set_option maxHeartbeats 1600000 in
/-- C7 counterexample: a 100-pixel scene whose default-class histogram is
exactly the one of the claim, `{4: 80, 7: 5}` and 0 elsewhere, yet the
assessment emits `valid_pixels = 85`, not 100 (the histogram only covers 85
of the 100 pixels; the remaining 15 carry the out-of-enumeration code 12). -/
theorem example_scene_c7_cex :
    sceneHundred.flatten.length = 100 ∧
    (calculate_scl_histogram sceneHundred defaultClasses).2
      = [0, 0, 0, 0, 80, 0, 0, 5, 0, 0, 0, 0] ∧
    (assess_scene sceneHundred).valid_pixels = 85 ∧
    ¬ (assess_scene sceneHundred).valid_pixels = 100 := by decide

/-- C7 amended: for any scene whose default-class histogram is
`[0, 0, 0, 0, 80, 0, 0, 5, 0, 0, 0, 0]`, the assessment yields
`total_pixels = 85`, `valid_pixels = 85` (the histogram sums to 85, not
100), `valid_ratio = 1`, `cloud_pixels = 5`, and `coverage = 1 - 5/80`. -/
theorem example_scene_c7_amended (scene : Scene)
    (hfr : (calculate_scl_histogram scene defaultClasses).2
      = [0, 0, 0, 0, 80, 0, 0, 5, 0, 0, 0, 0]) :
    (assess_scene scene).total_pixels = 85 ∧
    (assess_scene scene).valid_pixels = 85 ∧
    (assess_scene scene).valid_ratio = 1 ∧
    cloud_pixels_of (calculate_scl_histogram scene defaultClasses).2 = 5 ∧
    (assess_scene scene).coverage = 1 - (5 : ℚ) / 80 := by
  refine ⟨?_, ?_, ?_, ?_, ?_⟩
  · rw [assess_scene_total, hfr]
    decide
  · rw [assess_scene_valid, hfr]
    decide
  · rw [assess_scene_ratio, hfr]
    norm_num
  · rw [hfr]
    decide
  · rw [assess_scene_coverage, hfr]
    norm_num [cloud_pixels_of]

/-- C7 amended witness: the concrete 100-pixel scene realises the amended
figures. -/
theorem example_scene_c7_amended_witness :
    (assess_scene sceneHundred).valid_ratio = 1 ∧
    (assess_scene sceneHundred).coverage = 1 - (5 : ℚ) / 80 :=
  ⟨(example_scene_c7_amended sceneHundred (by decide)).2.2.1,
   (example_scene_c7_amended sceneHundred (by decide)).2.2.2.2⟩

/-- C3: a scene of the quality report is kept by the filter exactly when its
`valid_ratio` and `coverage` pass their thresholds under inclusive
comparison.  The report models a Python dictionary, so its keys are
duplicate-free. -/
theorem filter_keep_iff_c3 (report : List (Nat × QualityStats))
    (vt ct vr cv : ℚ) (i : Nat)
    (hmem : (i, (⟨some vr, some cv⟩ : QualityStats)) ∈ report)
    (hnd : (report.map Prod.fst).Nodup) :
    i ∈ keepIndices report vt ct ↔ (vr ≥ vt ∧ cv ≥ ct) := by
  constructor
  · intro h
    obtain ⟨e, he, hei⟩ := List.mem_map.mp h
    obtain ⟨hem, hkept⟩ := List.mem_filter.mp he
    obtain ⟨j, st⟩ := e
    have hj : j = i := hei
    subst hj
    have hst : st = (⟨some vr, some cv⟩ : QualityStats) :=
      key_unique report hnd j st _ hem hmem
    subst hst
    simpa [sceneKept] using hkept
  · rintro ⟨h1, h2⟩
    refine List.mem_map.mpr
      ⟨(i, (⟨some vr, some cv⟩ : QualityStats)),
       List.mem_filter.mpr ⟨hmem, ?_⟩, rfl⟩
    simpa [sceneKept] using ⟨h1, h2⟩

/-- C3 witness: the boundary record of the claim, `valid_ratio = 1` and
`coverage = 15/16 = 0.9375`, is kept under the thresholds `1` and `15/16`. -/
theorem filter_keep_iff_c3_witness :
    0 ∈ keepIndices [(0, (⟨some 1, some (15 / 16)⟩ : QualityStats))] 1 (15 / 16) :=
  (filter_keep_iff_c3 [(0, (⟨some 1, some (15 / 16)⟩ : QualityStats))]
    1 (15 / 16) 1 (15 / 16) 0 (List.mem_cons_self _ _) (by decide)).mpr
    ⟨le_refl 1, le_refl (15 / 16)⟩

/-- C4: whenever every report key is a valid time index and every record
carries the `valid_ratio` key the verbose log line reads, the filter raises
the empty-result ValueError exactly when no scene passes both thresholds,
and returns normally exactly when at least one scene is kept. -/
theorem filter_empty_error_c4 {α : Type} (ds : List α)
    (report : List (Nat × QualityStats)) (vt ct : ℚ) (verbose : Bool)
    (hrange : ∀ e ∈ report, e.1 < ds.length)
    (hkeys : ∀ e ∈ report, verbose = true → e.2.valid_ratio.isSome) :
    (filter_scenes_by_validity_ratio ds report vt ct verbose
        = Except.error emptyResultMsg ↔ keepIndices report vt ct = []) ∧
    ((∃ out, filter_scenes_by_validity_ratio ds report vt ct verbose
        = Except.ok out) ↔ keepIndices report vt ct ≠ []) := by
  have h := filterLoop_ok ds.length vt ct verbose report hrange hkeys
  have hred : filter_scenes_by_validity_ratio ds report vt ct verbose =
      if (keepIndices report vt ct).isEmpty then Except.error emptyResultMsg
      else Except.ok
        ((keepIndices report vt ct).filterMap (fun i => ds[i]?)) := by
    rw [filter_scenes_by_validity_ratio, h]
  by_cases he : keepIndices report vt ct = []
  · rw [hred, if_pos (List.isEmpty_iff.mpr he)]
    constructor
    · simp [he]
    · simp [he]
  · rw [hred, if_neg (fun hc => he (List.isEmpty_iff.mp hc))]
    constructor
    · simp [he]
    · simp [he]

/-- C4 witness: a one-scene report failing the thresholds makes the filter
raise the empty-result error. -/
theorem filter_empty_error_c4_witness :
    filter_scenes_by_validity_ratio ["scene0"]
        [(0, (⟨some 0, some 0⟩ : QualityStats))] 1 1 true
      = Except.error emptyResultMsg :=
  (filter_empty_error_c4 ["scene0"] [(0, (⟨some 0, some 0⟩ : QualityStats))]
    1 1 true (by decide) (by decide)).1.mpr (by decide)

/-- C8 counterexample: a quality report whose dictionary insertion order is
`{1: ..., 0: ...}` makes the filter keep `[1, 0]` and return the two scenes
in reversed temporal order, so the kept indices are not listed in ascending
order. -/
theorem filter_order_c8_cex :
    filter_scenes_by_validity_ratio ["sceneA", "sceneB"]
        [(1, (⟨some 1, some 1⟩ : QualityStats)),
         (0, (⟨some 1, some 1⟩ : QualityStats))] 0 0 true
      = Except.ok ["sceneB", "sceneA"] ∧
    keepIndices [(1, (⟨some 1, some 1⟩ : QualityStats)),
        (0, (⟨some 1, some 1⟩ : QualityStats))] 0 0 = [1, 0] ∧
    ¬ List.Sorted (· ≤ ·)
        (keepIndices [(1, (⟨some 1, some 1⟩ : QualityStats)),
          (0, (⟨some 1, some 1⟩ : QualityStats))] 0 0) :=
  ⟨by rfl, by decide, by decide⟩

/-- C8 amended: the filter keeps indices in the iteration order of the
quality-report dictionary; when the report keys are listed in ascending
temporal order (as the assessor produces them) and are valid time indices,
the kept indices are an ascending sublist of the report keys, so filtering
never reorders scenes. -/
theorem filter_order_c8_amended {α : Type} (ds : List α)
    (report : List (Nat × QualityStats)) (vt ct : ℚ)
    (hrange : ∀ e ∈ report, e.1 < ds.length)
    (hsorted : List.Sorted (· < ·) (report.map Prod.fst)) :
    List.Sorted (· < ·) (keepIndices report vt ct) ∧
    (keepIndices report vt ct).Sublist (report.map Prod.fst) ∧
    ∀ i ∈ keepIndices report vt ct, i < ds.length := by
  have hsub : (keepIndices report vt ct).Sublist (report.map Prod.fst) :=
    List.Sublist.map Prod.fst (List.filter_sublist report)
  refine ⟨List.Pairwise.sublist hsub hsorted, hsub, ?_⟩
  intro i hi
  obtain ⟨e, he, hei⟩ := List.mem_map.mp (hsub.subset hi)
  exact hei ▸ hrange e he

/-- C8 amended witness: with ascending report keys the kept indices stay
ascending. -/
theorem filter_order_c8_amended_witness :
    List.Sorted (· < ·)
      (keepIndices [(0, (⟨some 1, some 1⟩ : QualityStats)),
        (1, (⟨some 0, some 0⟩ : QualityStats))] (1 / 2) (1 / 2)) ∧
    (keepIndices [(0, (⟨some 1, some 1⟩ : QualityStats)),
        (1, (⟨some 0, some 0⟩ : QualityStats))] (1 / 2) (1 / 2)).Sublist [0, 1] ∧
    ∀ i ∈ keepIndices [(0, (⟨some 1, some 1⟩ : QualityStats)),
        (1, (⟨some 0, some 0⟩ : QualityStats))] (1 / 2) (1 / 2),
      i < (["sceneA", "sceneB"] : List String).length :=
  filter_order_c8_amended ["sceneA", "sceneB"]
    [(0, (⟨some 1, some 1⟩ : QualityStats)),
     (1, (⟨some 0, some 0⟩ : QualityStats))] (1 / 2) (1 / 2)
    (by decide) (by decide)

/-- C10 counterexample: with the default `verbose=True`, a record lacking the
`valid_ratio` key is not silently treated as 0.0: the log line reads
`quality_stats["valid_ratio"]` and raises a KeyError, even though both
thresholds are 0 and the claim says the scene would be kept. -/
theorem missing_keys_c10_cex :
    filter_scenes_by_validity_ratio ["scene0"]
        [(0, (⟨none, some 1⟩ : QualityStats))] 0 0 true
      = Except.error keyErrorMsg := by rfl

/-- C10 amended: in the threshold comparison a missing `valid_ratio` or
`coverage` key defaults to 0.0, so a kept scene lacking a metric forces the
corresponding threshold to be at most 0; the loop runs without error,
however, only when `verbose` is false, since the verbose log line raises a
KeyError on a record lacking `valid_ratio`. -/
theorem missing_keys_c10_amended (report : List (Nat × QualityStats))
    (vt ct : ℚ) (i : Nat) (st : QualityStats)
    (hmem : (i, st) ∈ report) (hnd : (report.map Prod.fst).Nodup) :
    (i ∈ keepIndices report vt ct →
      (st.valid_ratio = none → vt ≤ 0) ∧ (st.coverage = none → ct ≤ 0)) ∧
    (∀ n : Nat, (∀ e ∈ report, e.1 < n) →
      filterLoop n vt ct false report
        = Except.ok (keepIndices report vt ct)) := by
  constructor
  · intro h
    obtain ⟨e, he, hei⟩ := List.mem_map.mp h
    obtain ⟨hem, hkept⟩ := List.mem_filter.mp he
    obtain ⟨j, st2⟩ := e
    have hj : j = i := hei
    subst hj
    have hst : st2 = st := key_unique report hnd j st2 st hem hmem
    subst hst
    obtain ⟨h1, h2⟩ := Bool.and_eq_true_iff.mp hkept
    constructor
    · intro hnone
      rw [hnone] at h1
      simpa using of_decide_eq_true h1
    · intro hnone
      rw [hnone] at h2
      simpa using of_decide_eq_true h2
  · intro n hr
    exact filterLoop_ok n vt ct false report hr
      (fun e he hfalse => absurd hfalse (by decide))

/-- C10 amended witness: with `verbose` off, a record lacking `valid_ratio`
passes the zero thresholds without raising. -/
theorem missing_keys_c10_amended_witness :
    filterLoop 1 0 0 false [(0, (⟨none, some 1⟩ : QualityStats))]
      = Except.ok
          (keepIndices [(0, (⟨none, some 1⟩ : QualityStats))] 0 0) :=
  (missing_keys_c10_amended [(0, (⟨none, some 1⟩ : QualityStats))] 0 0 0
    (⟨none, some 1⟩ : QualityStats) (List.mem_cons_self _ _) (by decide)).2
    1 (by decide)

/-- C9: the two duplicated `vegetation_time_series` implementations agree on
every dataset at their default arguments: the positional `frequencies[4]`
read and the `frequencies[classes.index(4)]` read coincide because the
default dense class list places the code-4 count at position 4, and both
emit date-only labels when `aggregated` is true (its default). -/
theorem vegetation_equiv_c9 (data_set : List TimeSlice)
    (pixel_size min_coverage : ℚ) :
    vegetation_time_series_v1 data_set pixel_size min_coverage true =
      vegetation_time_series_v2 data_set pixel_size min_coverage true := by
  unfold vegetation_time_series_v1 vegetation_time_series_v2
  refine congrArg₂ Prod.mk ?_ ?_
  · refine List.map_congr_left (fun s _ => ?_)
    rfl
  · refine List.map_congr_left (fun s _ => ?_)
    have hcls : (calculate_scl_histogram s.scl defaultClasses).1
        = defaultClasses := by
      rw [histogram_default_eq_map]
    dsimp only
    rw [hcls]
    have hidx : defaultClasses.findIdx? (fun c => decide (c = 4)) = some 4 := by
      decide
    rw [hidx]

end EOWorkflow
